import Mathlib

/-!
Shallow embedding of `server.js` (Elyvra storefront): product catalog,
payment ledger, order creation, payment verification and the download
gate. External effects are made explicit parameters: the HMAC primitive,
the payment gateway, the clock (`now`, milliseconds), the random token,
and the set of files present in the downloads directory.
-/

set_option autoImplicit false

namespace Elyvra

/-- A catalog product, as stored in `products.json`. -/
structure Product where
  id : String
  title : String
  description : String
  priceINR : Nat
  filename : String
  thumbnail : String
deriving Repr, DecidableEq

/-- The `status` field of a ledger entry: `'created'` or `'paid'`. -/
inductive PayStatus where
  | created
  | paid
deriving Repr, DecidableEq

/-- One entry of `payments.json`. Fields written only by the
verification handler are `Option`s, `none` before verification. -/
structure PaymentRecord where
  status : PayStatus
  orderId : String
  productId : String
  productTitle : String
  amountINR : Nat
  buyerName : Option String
  buyerEmail : Option String
  createdAt : Nat
  razorpay_payment_id : Option String := none
  razorpay_signature : Option String := none
  downloadToken : Option String := none
  downloadExpiresAt : Option Nat := none
deriving Repr, DecidableEq

/-- The payments ledger: the JSON object of `payments.json`, keyed by
gateway order id, in insertion order. -/
abbrev Ledger := List (String × PaymentRecord)

/-- `payments[orderId]`: first entry with the given key (keys are unique
in a JS object, so first match is the match). -/
def ledgerGet : Ledger → String → Option PaymentRecord
  | [], _ => none
  | e :: t, k => if e.1 = k then some e.2 else ledgerGet t k

/-- `payments[orderId] = record`: overwrite in place if the key exists,
else append at the end (JS object assignment semantics). -/
def ledgerPut : Ledger → String → PaymentRecord → Ledger
  | [], k, v => [(k, v)]
  | e :: t, k, v => if e.1 = k then (k, v) :: t else e :: ledgerPut t k v

/-- `Object.values(payments).find(p => p.downloadToken === token)`. -/
def findByToken : Ledger → String → Option PaymentRecord
  | [], _ => none
  | e :: t, tok =>
    if e.2.downloadToken = some tok then some e.2 else findByToken t tok

/-- `DOWNLOAD_TOKEN_TTL_MIN = parseInt(process.env... || '60', 10)`:
the configured TTL in minutes, defaulting to 60 when the environment
variable is absent. -/
def downloadTokenTTLMin (env : Option Nat) : Nat :=
  env.getD 60

/-- The seeded catalog `sampleProducts` written to `products.json`. -/
def sampleProducts : List Product :=
  [ { id := "prod-ebook-1"
    , title := "Mastering Productivity (eBook)"
    , description := "100 pages of productivity hacks and templates."
    , priceINR := 199
    , filename := "mastering-productivity.pdf"
    , thumbnail := "/assets/ebook-thumb.png" }
  , { id := "prod-templates-1"
    , title := "UI Kit & Templates"
    , description := "Collection of 20 modern UI templates (Figma)."
    , priceINR := 499
    , filename := "ui-kit-templates.zip"
    , thumbnail := "/assets/templates-thumb.png" } ]

/-- The `options` object sent to `razorpay.orders.create`. -/
structure OrderOptions where
  amount : Nat
  currency : String
  receipt : String
  payment_capture : Nat
deriving Repr, DecidableEq

/-- Outcome of `POST /api/create-order`. -/
inductive CreateOrderResult where
  /-- 400 `Missing productId` -/
  | invalidRequest
  /-- 404 `Product not found` -/
  | notFound
  /-- 500 `Failed to create order` (gateway call threw) -/
  | upstreamError
  /-- 200 `{ order }`: gateway order id plus the options that were sent -/
  | success (orderId : String) (requested : OrderOptions)
deriving Repr, DecidableEq

/-- JS `x || null` on an optional string: an empty string is falsy and
collapses to `null`. -/
def jsOrNull : Option String → Option String
  | some "" => none
  | x => x

/-- `POST /api/create-order`. `gateway` models `razorpay.orders.create`:
`none` means the call threw (caught by the handler's `try`/`catch`).
`productId = none` or `some ""` is a missing/falsy body field. -/
def createOrder (products : List Product)
    (gateway : OrderOptions → Option String) (now : Nat)
    (productId buyerName buyerEmail : Option String)
    (ledger : Ledger) : CreateOrderResult × Ledger :=
  match productId with
  | none => (.invalidRequest, ledger)
  | some pid =>
    if pid = "" then (.invalidRequest, ledger)
    else
      match products.find? (fun p => p.id = pid) with
      | none => (.notFound, ledger)
      | some product =>
        let amountPaise := product.priceINR * 100
        let options : OrderOptions :=
          { amount := amountPaise
          , currency := "INR"
          , receipt := "rcpt_" ++ product.id ++ "_" ++ toString now
          , payment_capture := 1 }
        match gateway options with
        | none => (.upstreamError, ledger)
        | some oid =>
          let entry : PaymentRecord :=
            { status := .created
            , orderId := oid
            , productId := product.id
            , productTitle := product.title
            , amountINR := product.priceINR
            , buyerName := jsOrNull buyerName
            , buyerEmail := jsOrNull buyerEmail
            , createdAt := now }
          (.success oid options, ledgerPut ledger oid entry)

/-- Outcome of `POST /api/verify-payment`. -/
inductive VerifyResult where
  /-- 400 `Missing parameters` -/
  | missingParams
  /-- 400 `Invalid signature` -/
  | signatureInvalid
  /-- 404 `Order not found on server` -/
  | orderNotFound
  /-- uncaught `TypeError` reading `.id` of `undefined`: the product
  lookup after the ledger write is unguarded -/
  | crash
  /-- 200 `{ success: true, downloadUrl, product }` -/
  | success (downloadUrl : String) (productId : String)
      (productTitle : String)
deriving Repr, DecidableEq

/-- `POST /api/verify-payment`. `hmacHex secret msg` models
`crypto.createHmac('sha256', secret).update(msg).digest('hex')`;
`token` models `nanoid(32)`; empty strings are the falsy/missing body
fields. -/
def verifyPayment (hmacHex : String → String → String) (secret : String)
    (products : List Product) (baseUrl : String) (ttlMin : Nat)
    (token : String) (now : Nat)
    (orderId paymentId signature : String)
    (ledger : Ledger) : VerifyResult × Ledger :=
  if orderId = "" ∨ paymentId = "" ∨ signature = "" then
    (.missingParams, ledger)
  else
    let generated := hmacHex secret (orderId ++ "|" ++ paymentId)
    if generated ≠ signature then (.signatureInvalid, ledger)
    else
      match ledgerGet ledger orderId with
      | none => (.orderNotFound, ledger)
      | some entry =>
        let expiresAt := now + ttlMin * 60 * 1000
        let updated : PaymentRecord :=
          { entry with
            status := .paid
          , razorpay_payment_id := some paymentId
          , razorpay_signature := some signature
          , downloadToken := some token
          , downloadExpiresAt := some expiresAt }
        let ledger' := ledgerPut ledger orderId updated
        match products.find? (fun p => p.id = entry.productId) with
        | none => (.crash, ledger')
        | some product =>
          (.success (baseUrl ++ "/download/" ++ token)
            product.id product.title, ledger')

/-- Outcome of `GET /download/:token`. -/
inductive DownloadResult where
  /-- 404 `Invalid or expired download link.` (no record holds the token) -/
  | notFoundToken
  /-- 410 `Download link has expired.` -/
  | expired
  /-- 404 `Product not found` -/
  | productNotFound
  /-- 404 `File not found on server` -/
  | fileNotFound
  /-- `res.download`: the file that is streamed -/
  | success (filename : String)
deriving Repr, DecidableEq

/-- `GET /download/:token`. `files` models the contents of the
`downloads/` directory. The handler never writes the ledger (the
single-use deletion is commented out in the source), so the returned
ledger is the input at every exit. In JS, `undefined < Date.now()` is
`false`, hence a missing `downloadExpiresAt` does not count as expired. -/
def resolveDownload (products : List Product) (files : List String)
    (now : Nat) (token : String)
    (ledger : Ledger) : DownloadResult × Ledger :=
  match findByToken ledger token with
  | none => (.notFoundToken, ledger)
  | some entry =>
    let isExpired :=
      match entry.downloadExpiresAt with
      | some e => decide (e < now)
      | none => false
    if isExpired then (.expired, ledger)
    else
      match products.find? (fun p => p.id = entry.productId) with
      | none => (.productNotFound, ledger)
      | some product =>
        if files.contains product.filename then
          (.success product.filename, ledger)
        else (.fileNotFound, ledger)

/-! ### Ledger lemmas -/

theorem ledgerGet_ledgerPut_self (l : Ledger) (k : String) (v : PaymentRecord) :
    ledgerGet (ledgerPut l k v) k = some v := by
  induction l with
  | nil => simp [ledgerPut, ledgerGet]
  | cons e t ih =>
    by_cases h : e.1 = k
    · simp [ledgerPut, ledgerGet, h]
    · simp [ledgerPut, ledgerGet, h, ih]

theorem ledgerGet_ledgerPut_ne (l : Ledger) (k k' : String) (v : PaymentRecord)
    (h : k' ≠ k) : ledgerGet (ledgerPut l k v) k' = ledgerGet l k' := by
  induction l with
  | nil => simp [ledgerPut, ledgerGet, Ne.symm h]
  | cons e t ih =>
    by_cases he : e.1 = k
    · simp [ledgerPut, ledgerGet, he, Ne.symm h]
    · by_cases he' : e.1 = k'
      · simp [ledgerPut, ledgerGet, he, he', h]
      · simp [ledgerPut, ledgerGet, he, he', ih]

theorem findByToken_eq_none (l : Ledger) (t : String)
    (h : ∀ e ∈ l, e.2.downloadToken ≠ some t) : findByToken l t = none := by
  induction l with
  | nil => rfl
  | cons e tl ih =>
    have h1 : e.2.downloadToken ≠ some t := h e (List.mem_cons_self e tl)
    simp only [findByToken, if_neg h1]
    exact ih fun x hx => h x (List.mem_cons_of_mem e hx)

/-! ### Demo constants used by witnesses and counterexamples -/

/-- A concrete stand-in instantiation of the abstract keyed-hash
parameter `hmacHex`, used to evaluate the handlers on concrete inputs. -/
def hmacDemo (secret msg : String) : String := secret ++ ":" ++ msg

/-- A demo pending record as `createOrder` writes it. -/
def demoCreated : PaymentRecord :=
  { status := .created
  , orderId := "o1"
  , productId := "prod-ebook-1"
  , productTitle := "Mastering Productivity (eBook)"
  , amountINR := 199
  , buyerName := none
  , buyerEmail := none
  , createdAt := 0 }

/-- A demo record after verification: paid, holding token `t1` that
expires at time 1000. -/
def demoPaid : PaymentRecord :=
  { demoCreated with
    status := .paid
  , razorpay_payment_id := some "p"
  , razorpay_signature := some "s:o1|p"
  , downloadToken := some "t1"
  , downloadExpiresAt := some 1000 }

/-- A demo pending record whose product has since vanished from the
catalog. -/
def demoGone : PaymentRecord :=
  { demoCreated with
    orderId := "o9"
  , productId := "prod-gone"
  , productTitle := "Gone" }

/-- `requested` amount of a successful gateway order creation, if any. -/
def requestedAmount : CreateOrderResult → Option Nat
  | .success _ o => some o.amount
  | _ => none

/-- The first seeded product, `prod-ebook-1`. -/
def ebookProduct : Product :=
  { id := "prod-ebook-1"
  , title := "Mastering Productivity (eBook)"
  , description := "100 pages of productivity hacks and templates."
  , priceINR := 199
  , filename := "mastering-productivity.pdf"
  , thumbnail := "/assets/ebook-thumb.png" }

/-- A demo gateway whose order-creation call always succeeds with order
id `order_1`. -/
def gatewayDemo : OrderOptions → Option String := fun _ => some "order_1"

/-- A demo gateway whose order-creation call always throws. -/
def gatewayFailDemo : OrderOptions → Option String := fun _ => none

/-! ### Order-creation lemmas -/

theorem createOrder_eq_of_success (products : List Product)
    (gateway : OrderOptions → Option String) (now : Nat) (pid : String)
    (bn be : Option String) (ledger : Ledger) (product : Product)
    (oid : String) (hpid : pid ≠ "")
    (hfind : products.find? (fun p => p.id = pid) = some product)
    (hgw : ∀ opts, gateway opts = some oid) :
    createOrder products gateway now (some pid) bn be ledger =
      (.success oid
        { amount := product.priceINR * 100
        , currency := "INR"
        , receipt := "rcpt_" ++ product.id ++ "_" ++ toString now
        , payment_capture := 1 },
       ledgerPut ledger oid
         { status := .created
         , orderId := oid
         , productId := product.id
         , productTitle := product.title
         , amountINR := product.priceINR
         , buyerName := jsOrNull bn
         , buyerEmail := jsOrNull be
         , createdAt := now }) := by
  simp only [createOrder]
  rw [if_neg hpid, hfind]
  dsimp only
  rw [hgw]

theorem createOrder_eq_of_gateway_fail (products : List Product)
    (gateway : OrderOptions → Option String) (now : Nat) (pid : String)
    (bn be : Option String) (ledger : Ledger) (product : Product)
    (hpid : pid ≠ "")
    (hfind : products.find? (fun p => p.id = pid) = some product)
    (hgw : ∀ opts, gateway opts = none) :
    createOrder products gateway now (some pid) bn be ledger =
      (.upstreamError, ledger) := by
  simp only [createOrder]
  rw [if_neg hpid, hfind]
  dsimp only
  rw [hgw]

/-! ### Verification-handler lemmas -/

theorem verifyPayment_of_mismatch (hmacHex : String → String → String)
    (secret : String) (products : List Product) (baseUrl : String)
    (ttlMin : Nat) (token : String) (now : Nat)
    (orderId paymentId signature : String) (ledger : Ledger)
    (ho : orderId ≠ "") (hp : paymentId ≠ "") (hs : signature ≠ "")
    (hsig : hmacHex secret (orderId ++ "|" ++ paymentId) ≠ signature) :
    verifyPayment hmacHex secret products baseUrl ttlMin token now
      orderId paymentId signature ledger = (.signatureInvalid, ledger) := by
  simp only [verifyPayment]
  rw [if_neg (by simp [ho, hp, hs]), if_pos hsig]

theorem verifyPayment_eq_of_sig (hmacHex : String → String → String)
    (secret : String) (products : List Product) (baseUrl : String)
    (ttlMin : Nat) (token : String) (now : Nat)
    (orderId paymentId signature : String) (ledger : Ledger)
    (entry : PaymentRecord)
    (ho : orderId ≠ "") (hp : paymentId ≠ "") (hs : signature ≠ "")
    (hsig : hmacHex secret (orderId ++ "|" ++ paymentId) = signature)
    (hentry : ledgerGet ledger orderId = some entry) :
    verifyPayment hmacHex secret products baseUrl ttlMin token now
      orderId paymentId signature ledger =
      ((match products.find? (fun p => p.id = entry.productId) with
        | none => VerifyResult.crash
        | some product =>
            .success (baseUrl ++ "/download/" ++ token)
              product.id product.title),
       ledgerPut ledger orderId
         { entry with
           status := .paid
         , razorpay_payment_id := some paymentId
         , razorpay_signature := some signature
         , downloadToken := some token
         , downloadExpiresAt := some (now + ttlMin * 60 * 1000) }) := by
  simp only [verifyPayment]
  rw [if_neg (by simp [ho, hp, hs]), if_neg (by simp [hsig]), hentry]
  dsimp only
  split <;> rfl

/-! ### Claims -/

/-- C7: `resolveDownload` never mutates the ledger: on the Expired path
the record is left untouched, and on the success path the token is not
invalidated (the single-use deletion is commented out), so every record
is unchanged after any `resolveDownload` call. -/
theorem claim_C7 (products : List Product) (files : List String)
    (now : Nat) (token : String) (ledger : Ledger) :
    (resolveDownload products files now token ledger).2 = ledger := by
  simp only [resolveDownload]
  split
  · rfl
  · split
    · rfl
    · split
      · rfl
      · split <;> rfl

/-- C5: for every token that equals no record's `downloadToken`,
`resolveDownload` fails with NotFound (never Expired), regardless of the
records' expiry times. -/
theorem claim_C5 (products : List Product) (files : List String)
    (now : Nat) (token : String) (ledger : Ledger)
    (h : ∀ e ∈ ledger, e.2.downloadToken ≠ some token) :
    resolveDownload products files now token ledger =
      (.notFoundToken, ledger) := by
  simp only [resolveDownload, findByToken_eq_none ledger token h]

/-- C5 witness: an unknown token against a ledger holding one (already
expired) record resolves to NotFound, not Expired. -/
theorem claim_C5_witness :
    resolveDownload sampleProducts ["mastering-productivity.pdf"] 5000
      "t2" [("o1", demoPaid)] = (.notFoundToken, [("o1", demoPaid)]) :=
  claim_C5 sampleProducts ["mastering-productivity.pdf"] 5000 "t2"
    [("o1", demoPaid)] (by decide)

/-- C1 counterexample: with the demo keyed hash, a call whose signature
does equal the recomputed HMAC still fails (with order-not-found) when
the order has no ledger entry, so `verifyPayment` does not succeed
whenever the signature matches: the claimed "if and only if" fails. -/
theorem claim_C1_counterexample :
    hmacDemo "s" ("o" ++ "|" ++ "p") = "s:o|p" ∧
    verifyPayment hmacDemo "s" sampleProducts "b" 60 "t" 0
      "o" "p" "s:o|p" [] = (.orderNotFound, []) := by
  constructor
  · rfl
  · rfl

/-- C1 (amended): for present parameters, every mismatched signature
makes `verifyPayment` fail with SignatureInvalid, leaving the ledger
unchanged (hence no token issued); and a successful call implies the
signature matched.  A matching signature alone does not guarantee
success (the order must also exist in the ledger). -/
theorem claim_C1 (hmacHex : String → String → String) (secret : String)
    (products : List Product) (baseUrl : String) (ttlMin : Nat)
    (token : String) (now : Nat)
    (orderId paymentId signature : String) (ledger : Ledger)
    (ho : orderId ≠ "") (hp : paymentId ≠ "") (hs : signature ≠ "") :
    (hmacHex secret (orderId ++ "|" ++ paymentId) ≠ signature →
        verifyPayment hmacHex secret products baseUrl ttlMin token now
          orderId paymentId signature ledger = (.signatureInvalid, ledger)) ∧
    (∀ u pid pt l',
        verifyPayment hmacHex secret products baseUrl ttlMin token now
          orderId paymentId signature ledger = (.success u pid pt, l') →
        hmacHex secret (orderId ++ "|" ++ paymentId) = signature) := by
  constructor
  · intro hne
    exact verifyPayment_of_mismatch hmacHex secret products baseUrl ttlMin
      token now orderId paymentId signature ledger ho hp hs hne
  · intro u pid pt l' hsucc
    by_contra hne
    rw [verifyPayment_of_mismatch hmacHex secret products baseUrl ttlMin
      token now orderId paymentId signature ledger ho hp hs hne] at hsucc
    simp at hsucc

/-- C1 witness: a concrete mismatched signature is rejected with
SignatureInvalid and the ledger is unchanged. -/
theorem claim_C1_witness :
    verifyPayment hmacDemo "s" sampleProducts "b" 60 "t" 0
      "o" "p" "bad" [("o1", demoCreated)] =
      (.signatureInvalid, [("o1", demoCreated)]) :=
  (claim_C1 hmacDemo "s" sampleProducts "b" 60 "t" 0 "o" "p" "bad"
      [("o1", demoCreated)] (by decide) (by decide) (by decide)).1
    (by decide)

/-- C4 counterexample: a record that is already `paid` (holding token
`t1`) is mutated again by a second successful verification, which
overwrites its download token with `t2` — so "a record already in
status paid is never mutated again" fails on the code: the handler
never checks the current status. -/
theorem claim_C4_counterexample :
    demoPaid.status = .paid ∧
    Option.map PaymentRecord.downloadToken
      (ledgerGet [("o1", demoPaid)] "o1") = some (some "t1") ∧
    Option.map PaymentRecord.downloadToken
      (ledgerGet
        (verifyPayment hmacDemo "s" sampleProducts "b" 60 "t2" 0
          "o1" "p" "s:o1|p" [("o1", demoPaid)]).2 "o1") =
      some (some "t2") := by
  refine ⟨rfl, rfl, ?_⟩
  rfl

/-- C4 (amended): the status transition is one-way — after any
`verifyPayment` call, every record that was `paid` is still `paid`
(the handler only ever sets status to `paid`); but a `paid` record may
be mutated again by a repeated successful verification, which re-mints
its token and overwrites the payment fields. -/
theorem claim_C4 (hmacHex : String → String → String) (secret : String)
    (products : List Product) (baseUrl : String) (ttlMin : Nat)
    (token : String) (now : Nat)
    (orderId paymentId signature : String) (ledger : Ledger)
    (k : String) (r : PaymentRecord)
    (hk : ledgerGet ledger k = some r) (hr : r.status = .paid) :
    Option.map PaymentRecord.status
      (ledgerGet
        (verifyPayment hmacHex secret products baseUrl ttlMin token now
          orderId paymentId signature ledger).2 k) = some .paid := by
  simp only [verifyPayment]
  split
  · simp [hk, hr]
  · split
    · simp [hk, hr]
    · split
      · simp [hk, hr]
      · split <;>
        · by_cases hko : k = orderId
          · subst hko
            simp [ledgerGet_ledgerPut_self]
          · simp [ledgerGet_ledgerPut_ne _ _ _ _ hko, hk, hr]

/-- C4 witness: re-verifying an already-paid order leaves it `paid`. -/
theorem claim_C4_witness :
    Option.map PaymentRecord.status
      (ledgerGet
        (verifyPayment hmacDemo "s" sampleProducts "b" 60 "t2" 0
          "o1" "p" "s:o1|p" [("o1", demoPaid)]).2 "o1") = some .paid :=
  claim_C4 hmacDemo "s" sampleProducts "b" 60 "t2" 0 "o1" "p" "s:o1|p"
    [("o1", demoPaid)] "o1" demoPaid (by decide) (by decide)

/-- C10: with a valid signature for an order whose recorded productId is
absent from the catalog, the record is still marked `paid` and the token
persisted, but the handler then crashes building the success response
(the product lookup after the write is unguarded). -/
theorem claim_C10 (hmacHex : String → String → String) (secret : String)
    (products : List Product) (baseUrl : String) (ttlMin : Nat)
    (token : String) (now : Nat)
    (orderId paymentId signature : String) (ledger : Ledger)
    (entry : PaymentRecord)
    (ho : orderId ≠ "") (hp : paymentId ≠ "") (hs : signature ≠ "")
    (hsig : hmacHex secret (orderId ++ "|" ++ paymentId) = signature)
    (hentry : ledgerGet ledger orderId = some entry)
    (hprod : products.find? (fun p => p.id = entry.productId) = none) :
    (verifyPayment hmacHex secret products baseUrl ttlMin token now
        orderId paymentId signature ledger).1 = .crash ∧
    Option.map PaymentRecord.status
      (ledgerGet
        (verifyPayment hmacHex secret products baseUrl ttlMin token now
          orderId paymentId signature ledger).2 orderId) = some .paid ∧
    Option.map PaymentRecord.downloadToken
      (ledgerGet
        (verifyPayment hmacHex secret products baseUrl ttlMin token now
          orderId paymentId signature ledger).2 orderId) =
      some (some token) := by
  rw [verifyPayment_eq_of_sig hmacHex secret products baseUrl ttlMin token
    now orderId paymentId signature ledger entry ho hp hs hsig hentry]
  rw [hprod]
  refine ⟨rfl, ?_, ?_⟩ <;> simp [ledgerGet_ledgerPut_self]

/-- C10 witness: a concrete paid-then-crash run — ledger entry for
`o9` references product `prod-gone`, absent from the catalog. -/
theorem claim_C10_witness :
    (verifyPayment hmacDemo "s" sampleProducts "b" 60 "t9" 0
        "o9" "p" "s:o9|p" [("o9", demoGone)]).1 = .crash ∧
    Option.map PaymentRecord.status
      (ledgerGet
        (verifyPayment hmacDemo "s" sampleProducts "b" 60 "t9" 0
          "o9" "p" "s:o9|p" [("o9", demoGone)]).2 "o9") = some .paid ∧
    Option.map PaymentRecord.downloadToken
      (ledgerGet
        (verifyPayment hmacDemo "s" sampleProducts "b" 60 "t9" 0
          "o9" "p" "s:o9|p" [("o9", demoGone)]).2 "o9") =
      some (some "t9") :=
  claim_C10 hmacDemo "s" sampleProducts "b" 60 "t9" 0 "o9" "p" "s:o9|p"
    [("o9", demoGone)] demoGone (by decide) (by decide) (by decide)
    (by decide) (by decide) (by decide)

/-- C2 counterexample: for `prod-ebook-1` (price 199), the ledger entry
written by a successful `createOrder` stores `amountINR = 199`, the raw
price — not `199 × 100 = 19900` as the claim states (only the gateway
request carries the scaled amount). -/
theorem claim_C2_counterexample :
    Option.map PaymentRecord.amountINR
      (ledgerGet
        (createOrder sampleProducts gatewayDemo 0 (some "prod-ebook-1")
          none none []).2 "order_1") = some 199 ∧
    Option.map PaymentRecord.status
      (ledgerGet
        (createOrder sampleProducts gatewayDemo 0 (some "prod-ebook-1")
          none none []).2 "order_1") = some .created ∧
    (199 : Nat) ≠ 199 * 100 := by
  refine ⟨rfl, rfl, by decide⟩

/-- C2 (amended): for every valid productId, a successful `createOrder`
writes a ledger entry in status `created` whose stored `amountINR`
equals `product.priceINR` (the unscaled price); the scaled value
`product.priceINR × 100` is what is requested from the gateway, not
what is stored in the ledger. -/
theorem claim_C2 (products : List Product)
    (gateway : OrderOptions → Option String) (now : Nat) (pid : String)
    (bn be : Option String) (ledger : Ledger) (product : Product)
    (oid : String) (hpid : pid ≠ "")
    (hfind : products.find? (fun p => p.id = pid) = some product)
    (hgw : ∀ opts, gateway opts = some oid) :
    Option.map PaymentRecord.status
      (ledgerGet
        (createOrder products gateway now (some pid) bn be ledger).2 oid) =
      some .created ∧
    Option.map PaymentRecord.amountINR
      (ledgerGet
        (createOrder products gateway now (some pid) bn be ledger).2 oid) =
      some product.priceINR ∧
    requestedAmount
      (createOrder products gateway now (some pid) bn be ledger).1 =
      some (product.priceINR * 100) := by
  rw [createOrder_eq_of_success products gateway now pid bn be ledger
    product oid hpid hfind hgw]
  refine ⟨?_, ?_, rfl⟩ <;> simp [ledgerGet_ledgerPut_self]

/-- C2 witness: concrete successful order creation for `prod-ebook-1`
against the demo gateway. -/
theorem claim_C2_witness :
    Option.map PaymentRecord.status
      (ledgerGet
        (createOrder sampleProducts gatewayDemo 7 (some "prod-ebook-1")
          none none []).2 "order_1") = some .created ∧
    Option.map PaymentRecord.amountINR
      (ledgerGet
        (createOrder sampleProducts gatewayDemo 7 (some "prod-ebook-1")
          none none []).2 "order_1") = some 199 ∧
    requestedAmount
      (createOrder sampleProducts gatewayDemo 7 (some "prod-ebook-1")
        none none []).1 = some (199 * 100) :=
  claim_C2 sampleProducts gatewayDemo 7 "prod-ebook-1" none none []
    ebookProduct "order_1" (by decide) (by decide) (fun _ => rfl)

/-- C6: if the gateway order-creation call fails (throws), `createOrder`
fails with UpstreamError and the ledger is exactly as it was before the
call — no entry is written. -/
theorem claim_C6 (products : List Product)
    (gateway : OrderOptions → Option String) (now : Nat) (pid : String)
    (bn be : Option String) (ledger : Ledger) (product : Product)
    (hpid : pid ≠ "")
    (hfind : products.find? (fun p => p.id = pid) = some product)
    (hgw : ∀ opts, gateway opts = none) :
    createOrder products gateway now (some pid) bn be ledger =
      (.upstreamError, ledger) :=
  createOrder_eq_of_gateway_fail products gateway now pid bn be ledger
    product hpid hfind hgw

/-- C6 witness: the always-failing demo gateway leaves a non-empty
ledger untouched and yields UpstreamError. -/
theorem claim_C6_witness :
    createOrder sampleProducts gatewayFailDemo 0 (some "prod-ebook-1")
      none none [("o1", demoCreated)] =
      (.upstreamError, [("o1", demoCreated)]) :=
  claim_C6 sampleProducts gatewayFailDemo 0 "prod-ebook-1" none none
    [("o1", demoCreated)] ebookProduct (by decide) (by decide)
    (fun _ => rfl)

/-- C9: for the seeded product `prod-ebook-1` priced 199, `createOrder`
requests a gateway charge of exactly 19900 minor units, and
199 × 100 = 19900 in exact integer arithmetic. -/
theorem claim_C9 (gateway : OrderOptions → Option String) (oid : String)
    (bn be : Option String) (ledger : Ledger) (now : Nat)
    (hgw : ∀ opts, gateway opts = some oid) :
    requestedAmount
      (createOrder sampleProducts gateway now (some "prod-ebook-1")
        bn be ledger).1 = some 19900 ∧
    199 * 100 = 19900 := by
  rw [createOrder_eq_of_success sampleProducts gateway now "prod-ebook-1"
    bn be ledger ebookProduct oid (by decide) (by decide) hgw]
  exact ⟨rfl, rfl⟩

/-- C9 witness: concrete run against the demo gateway. -/
theorem claim_C9_witness :
    requestedAmount
      (createOrder sampleProducts gatewayDemo 0 (some "prod-ebook-1")
        none none []).1 = some 19900 ∧
    199 * 100 = 19900 :=
  claim_C9 gatewayDemo "order_1" none none [] 0 (fun _ => rfl)

/-- C3 counterexample: at the boundary instant `now = downloadExpiresAt`
(record `demoPaid` expires at 1000, call at 1000), `resolveDownload`
succeeds and serves the file — the claim says every call at a time
greater than or equal to `downloadExpiresAt` fails with Expired. The
code's check is strict (`downloadExpiresAt < now`). -/
theorem claim_C3_counterexample :
    demoPaid.downloadExpiresAt = some 1000 ∧
    resolveDownload sampleProducts ["mastering-productivity.pdf"] 1000
      "t1" [("o1", demoPaid)] =
      (.success "mastering-productivity.pdf", [("o1", demoPaid)]) :=
  ⟨rfl, rfl⟩

/-- C3 (amended): for a minted token whose record's product is still in
the catalog and whose file is present, `resolveDownload` succeeds while
the current time is less than or equal to `downloadExpiresAt`, and
fails with Expired exactly when the current time is strictly greater
than `downloadExpiresAt` (the boundary instant succeeds). -/
theorem claim_C3 (products : List Product) (files : List String)
    (now : Nat) (token : String) (ledger : Ledger)
    (entry : PaymentRecord) (e : Nat) (product : Product)
    (hfind : findByToken ledger token = some entry)
    (hexp : entry.downloadExpiresAt = some e)
    (hprod : products.find? (fun p => p.id = entry.productId) = some product)
    (hfile : files.contains product.filename = true) :
    (now ≤ e →
      resolveDownload products files now token ledger =
        (.success product.filename, ledger)) ∧
    (e < now →
      resolveDownload products files now token ledger =
        (.expired, ledger)) := by
  constructor
  · intro hle
    have hmem : product.filename ∈ files := by simpa using hfile
    simp [resolveDownload, hfind, hexp, hprod, hmem, Nat.not_lt.mpr hle]
  · intro hlt
    simp [resolveDownload, hfind, hexp, hlt]

/-- C3 witness: token `t1` (expiry 1000) succeeds at time 500 and is
Expired at time 2000. -/
theorem claim_C3_witness :
    resolveDownload sampleProducts ["mastering-productivity.pdf"] 500
      "t1" [("o1", demoPaid)] =
      (.success "mastering-productivity.pdf", [("o1", demoPaid)]) ∧
    resolveDownload sampleProducts ["mastering-productivity.pdf"] 2000
      "t1" [("o1", demoPaid)] = (.expired, [("o1", demoPaid)]) :=
  ⟨(claim_C3 sampleProducts ["mastering-productivity.pdf"] 500 "t1"
      [("o1", demoPaid)] demoPaid 1000 ebookProduct (by decide)
      (by decide) (by decide) (by decide)).1 (by decide),
   (claim_C3 sampleProducts ["mastering-productivity.pdf"] 2000 "t1"
      [("o1", demoPaid)] demoPaid 1000 ebookProduct (by decide)
      (by decide) (by decide) (by decide)).2 (by decide)⟩

/-- The ledger after a successful verification of order `o1` at time 0
with TTL configured to 1 minute, minting token `tk8` (used by the C8
concrete scenario). -/
def ledgerScenarioC8 : Ledger :=
  (verifyPayment hmacDemo "s" sampleProducts "b"
    (downloadTokenTTLMin (some 1)) "tk8" 0 "o1" "p" "s:o1|p"
    [("o1", demoCreated)]).2

/-- C8: a successful `verifyPayment` sets the minted token's expiry to
the current time plus the configured TTL converted from minutes to
milliseconds; the TTL defaults to 60 minutes when unconfigured; and in
the concrete scenario with TTL = 1 minute a token minted at time 0
succeeds at 30s and fails with Expired at 61s. -/
theorem claim_C8 (hmacHex : String → String → String) (secret : String)
    (products : List Product) (baseUrl : String) (ttlEnv : Option Nat)
    (token : String) (now : Nat)
    (orderId paymentId signature : String) (ledger : Ledger)
    (entry : PaymentRecord)
    (ho : orderId ≠ "") (hp : paymentId ≠ "") (hs : signature ≠ "")
    (hsig : hmacHex secret (orderId ++ "|" ++ paymentId) = signature)
    (hentry : ledgerGet ledger orderId = some entry) :
    downloadTokenTTLMin none = 60 ∧
    Option.map PaymentRecord.downloadExpiresAt
      (ledgerGet
        (verifyPayment hmacHex secret products baseUrl
          (downloadTokenTTLMin ttlEnv) token now
          orderId paymentId signature ledger).2 orderId) =
      some (some (now + downloadTokenTTLMin ttlEnv * 60 * 1000)) ∧
    (resolveDownload sampleProducts ["mastering-productivity.pdf"]
        30000 "tk8" ledgerScenarioC8).1 =
      .success "mastering-productivity.pdf" ∧
    (resolveDownload sampleProducts ["mastering-productivity.pdf"]
        61000 "tk8" ledgerScenarioC8).1 = .expired := by
  refine ⟨rfl, ?_, rfl, rfl⟩
  rw [verifyPayment_eq_of_sig hmacHex secret products baseUrl
    (downloadTokenTTLMin ttlEnv) token now orderId paymentId signature
    ledger entry ho hp hs hsig hentry]
  simp [ledgerGet_ledgerPut_self]

/-- C8 witness: concrete verification at time 5 with TTL 2 minutes
yields expiry 5 + 120000, and the TTL = 1 scenario facts hold. -/
theorem claim_C8_witness :
    downloadTokenTTLMin none = 60 ∧
    Option.map PaymentRecord.downloadExpiresAt
      (ledgerGet
        (verifyPayment hmacDemo "s" sampleProducts "b"
          (downloadTokenTTLMin (some 2)) "tk" 5 "o1" "p" "s:o1|p"
          [("o1", demoCreated)]).2 "o1") =
      some (some (5 + downloadTokenTTLMin (some 2) * 60 * 1000)) ∧
    (resolveDownload sampleProducts ["mastering-productivity.pdf"]
        30000 "tk8" ledgerScenarioC8).1 =
      .success "mastering-productivity.pdf" ∧
    (resolveDownload sampleProducts ["mastering-productivity.pdf"]
        61000 "tk8" ledgerScenarioC8).1 = .expired :=
  claim_C8 hmacDemo "s" sampleProducts "b" (some 2) "tk" 5 "o1" "p"
    "s:o1|p" [("o1", demoCreated)] demoCreated (by decide) (by decide)
    (by decide) (by decide) (by decide)

end Elyvra
